import Mathlib

/-!
Verification development for the multi-agent pipeline in `multiagent1.py`.

The script drives a fixed group-chat of five agent roles, extracts a code
artifact from the final chat message, runs it in a Docker sandbox, gates on
the literal substring "SAFE" in the captured output, and on success opens a
GitHub pull request and sends a notification email.

External collaborators (the orchestrator, the Docker daemon, the GitHub API,
the SMTP server) are modelled as environments recording the outcome of each
external call: either an exception (an error string, as Python would raise)
or a returned value.  The Python functions are embedded as total Lean
functions over these environments; a Python function that lets an exception
escape is embedded with an `Except String` result, while one that catches
all exceptions internally is embedded with a plain result type.  Note that
`execute_code_in_docker` constructs its Docker client outside its try
block, so a client-construction failure escapes it (and then escapes
`run_agents`, whose sandbox call is unwrapped), while a failure of the
`container.remove` call is caught but leaves the container behind.
-/

namespace Pipeline

/-- Substring containment, the semantics of the Python expression
`needle in haystack` on strings. -/
def strContains (haystack needle : String) : Bool :=
  decide (needle.toList <:+: haystack.toList)

/-- The five group-chat participant roles declared in the script. -/
inductive RoleTag
| Planner
| Writer
| Sanitizer
| Reviewer
| Notifier
deriving DecidableEq, BEq

/-- A chat message returned by one `orchestrator.step` call. -/
structure Message where
  role : RoleTag
  content : String
deriving DecidableEq, BEq

/-- Outcome of the external Docker calls made by one
`execute_code_in_docker` invocation.  `fromEnvFails` records an exception
raised by `docker.from_env()` (line 55, outside the try block, so it
escapes the function); `runFails`, `logsFail` and `removeFails` record an
exception raised by `client.containers.run`, `container.logs` and
`container.remove` respectively (all caught); `logs` is the decoded log
text when `container.logs` returns; `processTerminated` records whether the
detached process has terminated by the time the logs are collected (the
script never consults this). -/
structure DockerEnv where
  fromEnvFails : Option String
  runFails : Option String
  logsFail : Option String
  removeFails : Option String
  logs : String
  processTerminated : Bool
deriving DecidableEq

/-- Observable state of the ephemeral execution context when
`execute_code_in_docker` finishes (by return or by escaping exception):
whether the container was created, whether it was removed, whether the
temporary directory was created, and whether it was deleted. -/
structure ExecState where
  containerCreated : Bool
  containerRemoved : Bool
  tempdirCreated : Bool
  tempdirDeleted : Bool
deriving DecidableEq

/-- Embedding of `execute_code_in_docker` (multiagent1.py lines 54-78).
`docker.from_env()` runs before the try block, so its exception escapes the
function with nothing created.  Inside the try, the body writes the code to
a temporary directory, starts a detached container, immediately collects
its logs, removes the container with force, and returns the decoded logs;
any exception inside the try is caught and reported as the string
`"Execution failed: <detail>"`.  The `with TemporaryDirectory()` context
manager deletes the temporary directory on every exit path of the try, but
the container is removed only when `container.logs` returns and
`container.remove` itself succeeds: a failing remove is caught and leaves
the container behind. -/
def execute_code_in_docker (code : String) (env : DockerEnv) :
    Except String String × ExecState :=
  match env.fromEnvFails with
  | some ex => (Except.error ex, ⟨false, false, false, false⟩)
  | none =>
    match env.runFails with
    | some e => (Except.ok ("Execution failed: " ++ e), ⟨false, false, true, true⟩)
    | none =>
      match env.logsFail with
      | some e => (Except.ok ("Execution failed: " ++ e), ⟨true, false, true, true⟩)
      | none =>
        match env.removeFails with
        | some e => (Except.ok ("Execution failed: " ++ e), ⟨true, false, true, true⟩)
        | none => (Except.ok env.logs, ⟨true, true, true, true⟩)

/-- Whether the sandbox execution itself succeeded, i.e. no external Docker
call raised.  The script has no such flag: this predicate names the fact
about the environment for use in statements. -/
def exec_succeeded (env : DockerEnv) : Bool :=
  env.fromEnvFails.isNone && env.runFails.isNone && env.logsFail.isNone
    && env.removeFails.isNone

/-- The review-gate test applied by `run_agents` (line 161): proceed exactly
when the literal `"SAFE"` occurs in the captured sandbox output. -/
def gate_proceeds (output : String) : Bool :=
  strContains output "SAFE"

/-- Outcome of the external GitHub calls made by one `create_github_pr`
invocation: each field records the exception raised by the corresponding
API call, or `none` when that call returns; `prUrl` is the URL of the pull
request when `create_pull` returns. -/
structure GithubEnv where
  getRepoFails : Option String
  getBranchFails : Option String
  createRefFails : Option String
  createFileFails : Option String
  createPullFails : Option String
  prUrl : String
deriving DecidableEq

/-- Trace of the mutating GitHub operations attempted by one
`create_github_pr` invocation: branch refs requested, files committed
(path, branch), pull requests opened (head, base). -/
structure GitOps where
  refsCreated : List String
  filesCommitted : List (String × String)
  pullsOpened : List (String × String)
deriving DecidableEq

/-- The branch name used by `create_github_pr` (line 86): a fixed literal. -/
def new_branch_name : String := "auto/feature-agent"

/-- Whether every GitHub call of one `create_github_pr` invocation returns
normally. -/
def githubOk (env : GithubEnv) : Bool :=
  env.getRepoFails.isNone && env.getBranchFails.isNone && env.createRefFails.isNone
    && env.createFileFails.isNone && env.createPullFails.isNone

/-- Embedding of `create_github_pr` (lines 81-99).  It creates a git ref
`refs/heads/auto/feature-agent`, commits the file on that branch, opens a
pull request against `main`, and returns the PR URL; every exception is
caught and turns the result into `none`.  The second component records the
mutating operations attempted before the first failure. -/
def create_github_pr (file_path content commit_msg : String) (env : GithubEnv) :
    Option String × GitOps :=
  match env.getRepoFails with
  | some _ => (none, ⟨[], [], []⟩)
  | none =>
    match env.getBranchFails with
    | some _ => (none, ⟨[], [], []⟩)
    | none =>
      match env.createRefFails with
      | some _ => (none, ⟨["refs/heads/" ++ new_branch_name], [], []⟩)
      | none =>
        match env.createFileFails with
        | some _ => (none, ⟨["refs/heads/" ++ new_branch_name],
            [(file_path, new_branch_name)], []⟩)
        | none =>
          match env.createPullFails with
          | some _ => (none, ⟨["refs/heads/" ++ new_branch_name],
              [(file_path, new_branch_name)], [(new_branch_name, "main")]⟩)
          | none => (some env.prUrl, ⟨["refs/heads/" ++ new_branch_name],
              [(file_path, new_branch_name)], [(new_branch_name, "main")]⟩)

/-- Outcome of the SMTP session of one `send_email` invocation. -/
structure SmtpEnv where
  sendFails : Option String
deriving DecidableEq

/-- Embedding of `send_email` (lines 39-51): catches every exception and
only logs, so it never raises; returns whether the message was sent. -/
def send_email (subject body recipient : String) (env : SmtpEnv) : Bool :=
  env.sendFails.isNone

/-- Environment of one `run_agents` invocation: the orchestrator, keyed by
call index and input text, plus the Docker, GitHub and SMTP environments. -/
structure RunEnv where
  stepResults : Nat → String → Except String Message
  docker : DockerEnv
  github : GithubEnv
  smtp : SmtpEnv

/-- The run outcome, read off the four return paths of `run_agents`:
no code in the final message, sandbox check failed, PR created and email
sent, or PR creation failed. -/
inductive RunOutcome
| NoArtifact
| Aborted
| Delivered (ref : String)
| DeliveryFailed
deriving DecidableEq, BEq

/-- Observable trace of one `run_agents` invocation: how many times each
external collaborator was called, the sandbox output and execution-context
state when the sandbox ran, the messages returned by the orchestrator in
order, and the email-send result when an email was attempted. -/
structure RunTrace where
  stepCalls : Nat
  sandboxCalls : Nat
  publishCalls : Nat
  notifyCalls : Nat
  sandboxOutput : Option String
  execState : Option ExecState
  transcript : List Message
  emailSent : Option Bool

/-- Boolean test for a normally-returned `Except` value. -/
def exceptOk {ε α : Type} : Except ε α → Bool
  | Except.ok _ => true
  | Except.error _ => false

/-- The orchestrator-step loop of `run_agents` (lines 145-149): starting at
call index `i` with input text `s`, make `n` further `orchestrator.step`
calls, feeding each returned message into the next call.  Returns the
messages collected in order, the first uncaught exception if any, and the
number of calls actually made.  The script wraps none of these calls in a
try/except, so the first exception ends the loop. -/
def stepLoop (env : RunEnv) : Nat → Nat → String → List Message × Option String × Nat
  | _, 0, _ => ([], none, 0)
  | i, n + 1, s =>
    match env.stepResults i s with
    | Except.error e => ([], some e, 1)
    | Except.ok m =>
      (m :: (stepLoop env (i + 1) n m.content).1,
        (stepLoop env (i + 1) n m.content).2.1,
        (stepLoop env (i + 1) n m.content).2.2 + 1)

/-- The predicate `"def " in message.content` used on line 152 to decide
whether a message contains code. -/
def is_code (s : String) : Bool :=
  strContains s "def "

/-- The artifact extraction actually performed by `run_agents` (line 152):
look only at the final message of the transcript, keep its text when it
contains the `"def "` marker, regardless of the message role. -/
def code_extract (transcript : List Message) : Option String :=
  match transcript.getLast? with
  | none => none
  | some m => if is_code m.content then some m.content else none

/-- The extraction rule as the specification words it: scan the transcript
from most recent to oldest for a Writer-role turn whose text satisfies the
is-code predicate, and take the first match.  Stated for comparison with
`code_extract`, the rule the script implements. -/
def spec_extract (transcript : List Message) : Option String :=
  (transcript.reverse.find? fun m => m.role == RoleTag.Writer && is_code m.content).map
    Message.content

/-- Modelled from the spec: `MAX_TURNS`, the bound on agent-turn calls,
whose default is one full cycle through the five roles.  The script has no
such constant; the spec fixes its default value to the cycle length 5. -/
def MAX_TURNS : Nat := 5

/-- The gate / delivery phase of `run_agents` (lines 161-170) on the
sandbox output `out` the executor returned for the artifact `code`: gate on
`"SAFE"` in the output, and on PROCEED create the PR and email the user. -/
def gateDeliver (user_email : String) (env : RunEnv) (k : Nat) (ms : List Message)
    (code : String) (out : String) : Except String RunOutcome × RunTrace :=
  if gate_proceeds out = true then
    match (create_github_pr "generated_code.py" code "Add AI-generated feature"
        env.github).1 with
    | some url =>
      (Except.ok (RunOutcome.Delivered url),
        ⟨k, 1, 1, 1, some out,
          some (execute_code_in_docker code env.docker).2, ms,
          some (send_email "Your AI Task is Done" ("Task complete! PR: " ++ url)
            user_email env.smtp)⟩)
    | none =>
      (Except.ok RunOutcome.DeliveryFailed,
        ⟨k, 1, 1, 0, some out,
          some (execute_code_in_docker code env.docker).2, ms, none⟩)
  else
    (Except.ok RunOutcome.Aborted,
      ⟨k, 1, 0, 0, some out,
        some (execute_code_in_docker code env.docker).2, ms, none⟩)

/-- The sandbox / gate / delivery phase of `run_agents` (lines 157-170) on
an extracted artifact `code`: run it in the Docker sandbox, then gate and
deliver on its output.  The sandbox call on line 158 is unwrapped, so an
exception escaping `execute_code_in_docker` (a failing `docker.from_env()`)
escapes the run. -/
def deliver (user_email : String) (env : RunEnv) (k : Nat) (ms : List Message)
    (code : String) : Except String RunOutcome × RunTrace :=
  match (execute_code_in_docker code env.docker).1 with
  | Except.error ex =>
    (Except.error ex,
      ⟨k, 1, 0, 0, none, some (execute_code_in_docker code env.docker).2, ms, none⟩)
  | Except.ok out => gateDeliver user_email env k ms code out

/-- The post-loop phase of `run_agents` (lines 151-170), given the `k`
orchestrator calls already made and the collected transcript `ms`: extract
the artifact from the final message, then run the delivery phase on it. -/
def afterSteps (user_email : String) (env : RunEnv) (k : Nat) (ms : List Message) :
    Except String RunOutcome × RunTrace :=
  match code_extract ms with
  | none => (Except.ok RunOutcome.NoArtifact, ⟨k, 0, 0, 0, none, none, ms, none⟩)
  | some code => deliver user_email env k ms code

/-- Embedding of `run_agents` (lines 142-170): one initial
`orchestrator.step` call on the chat history plus a loop of five more, then
the extract / sandbox / gate / deliver phase.  An exception raised by an
orchestrator call is not caught anywhere in `run_agents` and escapes as an
`Except.error`. -/
def run_agents (user_task user_email : String) (env : RunEnv) :
    Except String RunOutcome × RunTrace :=
  match stepLoop env 0 6 ("User wants: " ++ user_task) with
  | (ms, some e, k) => (Except.error e, ⟨k, 0, 0, 0, none, none, ms, none⟩)
  | (ms, none, k) => afterSteps user_email env k ms

/-- A run whose orchestrator produces a code-bearing Writer turn in the
middle of the transcript but a code-free Notifier turn last. -/
def envC2 : RunEnv where
  stepResults := fun i _ =>
    match i with
    | 1 => Except.ok ⟨RoleTag.Writer, "def f():\n  return 1"⟩
    | 5 => Except.ok ⟨RoleTag.Notifier, "all done"⟩
    | _ => Except.ok ⟨RoleTag.Planner, "plan"⟩
  docker := ⟨none, none, none, none, "SAFE", true⟩
  github := ⟨none, none, none, none, none, "http://example/pr/2"⟩
  smtp := ⟨none⟩

/-- A run whose very first orchestrator call raises. -/
def envC5 : RunEnv where
  stepResults := fun i _ =>
    match i with
    | 0 => Except.error "connection reset"
    | _ => Except.ok ⟨RoleTag.Planner, "plan"⟩
  docker := ⟨none, none, none, none, "SAFE", true⟩
  github := ⟨none, none, none, none, none, "http://example/pr/5"⟩
  smtp := ⟨none⟩

/-- A run whose six orchestrator calls all return normally, whose final
message contains code, and whose Docker client construction
(`docker.from_env()`) raises. -/
def envC5d : RunEnv where
  stepResults := fun i _ =>
    match i with
    | 5 => Except.ok ⟨RoleTag.Writer, "def h(): return 3"⟩
    | _ => Except.ok ⟨RoleTag.Planner, "plan"⟩
  docker := ⟨some "docker daemon unreachable", none, none, none, "", true⟩
  github := ⟨none, none, none, none, none, "http://example/pr/5d"⟩
  smtp := ⟨none⟩

/-- A run whose orchestrator calls all return normally. -/
def envC5w : RunEnv where
  stepResults := fun _ _ => Except.ok ⟨RoleTag.Planner, "plan"⟩
  docker := ⟨none, none, none, none, "SAFE", true⟩
  github := ⟨none, none, none, none, none, "http://example/pr/5"⟩
  smtp := ⟨none⟩

/-- A run that produces code, passes the sandbox gate, and then hits a
GitHub authorization failure while publishing. -/
def envC7 : RunEnv where
  stepResults := fun i _ =>
    match i with
    | 5 => Except.ok ⟨RoleTag.Writer, "def g(): return 2"⟩
    | _ => Except.ok ⟨RoleTag.Planner, "plan"⟩
  docker := ⟨none, none, none, none, "SAFE", true⟩
  github := ⟨some "401 Unauthorized", none, none, none, none, "http://example/pr/7"⟩
  smtp := ⟨none⟩

/-- A run whose orchestrator always answers with a code-free message. -/
def envC8 : RunEnv where
  stepResults := fun _ _ => Except.ok ⟨RoleTag.Planner, "ok"⟩
  docker := ⟨none, none, none, none, "SAFE", true⟩
  github := ⟨none, none, none, none, none, "http://example/pr/8"⟩
  smtp := ⟨none⟩

/-- A run whose sandbox output is the single word UNSAFE: a literal negative
verdict that nevertheless contains the marker SAFE as a substring. -/
def envC10 : RunEnv where
  stepResults := fun i _ =>
    match i with
    | 5 => Except.ok ⟨RoleTag.Writer, "def f(): pass"⟩
    | _ => Except.ok ⟨RoleTag.Planner, "plan"⟩
  docker := ⟨none, none, none, none, "UNSAFE", true⟩
  github := ⟨none, none, none, none, none, "http://example/pr/10"⟩
  smtp := ⟨none⟩

lemma stepLoop_count_le (env : RunEnv) :
    ∀ (n i : Nat) (s : String), (stepLoop env i n s).2.2 ≤ n := by
  intro n
  induction n with
  | zero => intro i s; exact Nat.le_refl 0
  | succ n ih =>
    intro i s
    simp only [stepLoop]
    cases h : env.stepResults i s with
    | error e => exact Nat.succ_le_succ (Nat.zero_le n)
    | ok m => exact Nat.succ_le_succ (ih (i + 1) m.content)

lemma stepLoop_all_ok (env : RunEnv) (h : ∀ i s, exceptOk (env.stepResults i s) = true) :
    ∀ (n i : Nat) (s : String),
      (stepLoop env i n s).2.1 = none ∧ (stepLoop env i n s).2.2 = n := by
  intro n
  induction n with
  | zero => intro i s; exact ⟨rfl, rfl⟩
  | succ n ih =>
    intro i s
    have hres := h i s
    simp only [stepLoop]
    cases hr : env.stepResults i s with
    | error e =>
      rw [hr] at hres
      exact absurd hres (by simp [exceptOk])
    | ok m =>
      constructor
      · show (stepLoop env (i + 1) n m.content).2.1 = none
        exact (ih (i + 1) m.content).1
      · show (stepLoop env (i + 1) n m.content).2.2 + 1 = n + 1
        rw [(ih (i + 1) m.content).2]

lemma execute_ok_of_fromEnv (code : String) (env : DockerEnv)
    (h : env.fromEnvFails = none) :
    exceptOk (execute_code_in_docker code env).1 = true := by
  obtain ⟨fe, rf, lf, rm, lg, pt⟩ := env
  cases fe with
  | some ex => exact absurd h (by simp)
  | none => cases rf <;> cases lf <;> cases rm <;> rfl

lemma deliver_cases (e : String) (env : RunEnv) (k : Nat) (ms : List Message)
    (c : String) :
    (∃ ex, (execute_code_in_docker c env.docker).1 = Except.error ex
      ∧ deliver e env k ms c
        = (Except.error ex,
            ⟨k, 1, 0, 0, none, some (execute_code_in_docker c env.docker).2, ms, none⟩))
    ∨ (∃ out, (execute_code_in_docker c env.docker).1 = Except.ok out
      ∧ ((gate_proceeds out = false
          ∧ deliver e env k ms c
            = (Except.ok RunOutcome.Aborted,
                ⟨k, 1, 0, 0, some out,
                  some (execute_code_in_docker c env.docker).2, ms, none⟩))
        ∨ (gate_proceeds out = true
          ∧ (((create_github_pr "generated_code.py" c "Add AI-generated feature"
                env.github).1 = none
              ∧ deliver e env k ms c
                = (Except.ok RunOutcome.DeliveryFailed,
                    ⟨k, 1, 1, 0, some out,
                      some (execute_code_in_docker c env.docker).2, ms, none⟩))
            ∨ (∃ url, (create_github_pr "generated_code.py" c
                  "Add AI-generated feature" env.github).1 = some url
                ∧ deliver e env k ms c
                  = (Except.ok (RunOutcome.Delivered url),
                      ⟨k, 1, 1, 1, some out,
                        some (execute_code_in_docker c env.docker).2, ms,
                        some (send_email "Your AI Task is Done"
                          ("Task complete! PR: " ++ url) e env.smtp)⟩)))))) := by
  cases hex : (execute_code_in_docker c env.docker).1 with
  | error ex =>
    left
    refine ⟨ex, rfl, ?_⟩
    unfold deliver
    rw [hex]
  | ok out =>
    right
    refine ⟨out, rfl, ?_⟩
    cases hg : gate_proceeds out with
    | false =>
      left
      refine ⟨rfl, ?_⟩
      unfold deliver
      rw [hex]
      show gateDeliver e env k ms c out = _
      unfold gateDeliver
      rw [hg, if_neg Bool.false_ne_true]
    | true =>
      right
      refine ⟨rfl, ?_⟩
      cases hp : (create_github_pr "generated_code.py" c "Add AI-generated feature"
          env.github).1 with
      | none =>
        left
        refine ⟨rfl, ?_⟩
        unfold deliver
        rw [hex]
        show gateDeliver e env k ms c out = _
        unfold gateDeliver
        rw [hg, if_pos rfl, hp]
      | some url =>
        right
        refine ⟨url, rfl, ?_⟩
        unfold deliver
        rw [hex]
        show gateDeliver e env k ms c out = _
        unfold gateDeliver
        rw [hg, if_pos rfl, hp]

lemma afterSteps_none (e : String) (env : RunEnv) (k : Nat) (ms : List Message)
    (hc : code_extract ms = none) :
    afterSteps e env k ms
      = (Except.ok RunOutcome.NoArtifact, ⟨k, 0, 0, 0, none, none, ms, none⟩) := by
  unfold afterSteps
  rw [hc]

lemma afterSteps_some (e : String) (env : RunEnv) (k : Nat) (ms : List Message)
    (c : String) (hc : code_extract ms = some c) :
    afterSteps e env k ms = deliver e env k ms c := by
  unfold afterSteps
  rw [hc]

lemma afterSteps_cases (e : String) (env : RunEnv) (k : Nat) (ms : List Message) :
    (code_extract ms = none
      ∧ afterSteps e env k ms
        = (Except.ok RunOutcome.NoArtifact, ⟨k, 0, 0, 0, none, none, ms, none⟩))
    ∨ (∃ c, code_extract ms = some c ∧ afterSteps e env k ms = deliver e env k ms c) := by
  cases hc : code_extract ms with
  | none => exact Or.inl ⟨rfl, afterSteps_none e env k ms hc⟩
  | some c => exact Or.inr ⟨c, rfl, afterSteps_some e env k ms c hc⟩

lemma run_agents_cases (t e : String) (env : RunEnv) :
    (∃ ms er k, stepLoop env 0 6 ("User wants: " ++ t) = (ms, some er, k)
      ∧ run_agents t e env = (Except.error er, ⟨k, 0, 0, 0, none, none, ms, none⟩))
    ∨ (∃ ms k, stepLoop env 0 6 ("User wants: " ++ t) = (ms, none, k)
      ∧ run_agents t e env = afterSteps e env k ms) := by
  rcases hs : stepLoop env 0 6 ("User wants: " ++ t) with ⟨ms, er, k⟩
  cases er with
  | some er =>
    left
    exact ⟨ms, er, k, rfl, by unfold run_agents; rw [hs]⟩
  | none =>
    right
    exact ⟨ms, k, rfl, by unfold run_agents; rw [hs]⟩

lemma create_github_pr_isSome (fp c m : String) (g : GithubEnv) :
    (create_github_pr fp c m g).1.isSome = githubOk g := by
  obtain ⟨a, b, r, d, p, u⟩ := g
  cases a <;> cases b <;> cases r <;> cases d <;> cases p <;> rfl

lemma refsCreated_cases (fp c m : String) (g : GithubEnv) :
    (create_github_pr fp c m g).2.refsCreated = []
      ∨ (create_github_pr fp c m g).2.refsCreated
        = ["refs/heads/" ++ new_branch_name] := by
  obtain ⟨a, b, r, d, p, u⟩ := g
  cases a <;> cases b <;> cases r <;> cases d <;> cases p <;>
    first
    | exact Or.inl rfl
    | exact Or.inr rfl

lemma cons_infix_append_iff {α : Type} (a : α) (t p e : List α) (ha : a ∉ p) :
    a :: t <:+: p ++ e ↔ a :: t <:+: e := by
  induction p with
  | nil => simp
  | cons b p ih =>
    have hab : a ≠ b := fun hc => ha (hc ▸ List.mem_cons_self b p)
    have ha2 : a ∉ p := fun hc => ha (List.mem_cons_of_mem b hc)
    rw [List.cons_append, List.infix_cons_iff]
    constructor
    · rintro (hpre | hinf)
      · exact absurd (List.cons_prefix_cons.mp hpre).1 hab
      · exact (ih ha2).mp hinf
    · intro hinf
      exact Or.inr ((ih ha2).mpr hinf)

lemma strContains_failPrefix (e : String) :
    strContains ("Execution failed: " ++ e) "SAFE" = strContains e "SAFE" := by
  unfold strContains
  rw [decide_eq_decide]
  rw [show ("Execution failed: " ++ e).toList
      = "Execution failed: ".toList ++ e.toList from String.data_append _ _]
  rw [show "SAFE".toList = 'S' :: "AFE".toList from rfl]
  exact cons_infix_append_iff 'S' "AFE".toList "Execution failed: ".toList e.toList
    (by decide)

/-- C1.  The spec claims the gate returns PROCEED iff the output contains
the marker and the execution succeeded, so that every failed execution is
aborted regardless of output text.  Refuted: the script folds every caught
execution failure into the output text as the string
`Execution failed: <detail>` and tests only substring containment of SAFE,
so a failed execution whose exception text contains SAFE still proceeds.
Concretely, a Docker run that raises an exception mentioning UNSAFE yields
a failed execution on which the gate proceeds. -/
theorem C1_counterexample :
    exec_succeeded ⟨none, some "rejected as UNSAFE", none, none, "", true⟩ = false
      ∧ (execute_code_in_docker "print(1)"
          ⟨none, some "rejected as UNSAFE", none, none, "", true⟩).1
        = Except.ok "Execution failed: rejected as UNSAFE"
      ∧ gate_proceeds "Execution failed: rejected as UNSAFE" = true := by
  refine ⟨rfl, rfl, rfl⟩

/-- C1, amended.  The gate decision on a caught execution failure is
determined by the exception detail alone: whenever the Docker run, the log
collection, or the container removal raises with message `e` (the client
construction itself succeeding, otherwise the exception escapes before any
output exists), the executor returns the output
`Execution failed: <e>` and the gate proceeds on it exactly when `e`
contains the literal SAFE; execution failure itself does not force an
abort. -/
theorem C1_gate_ignores_failure (code : String) (env : DockerEnv) (e : String)
    (h0 : env.fromEnvFails = none)
    (h : env.runFails = some e
      ∨ env.runFails = none ∧ env.logsFail = some e
      ∨ env.runFails = none ∧ env.logsFail = none ∧ env.removeFails = some e) :
    (execute_code_in_docker code env).1 = Except.ok ("Execution failed: " ++ e)
      ∧ gate_proceeds ("Execution failed: " ++ e) = strContains e "SAFE" := by
  refine ⟨?_, strContains_failPrefix e⟩
  unfold execute_code_in_docker
  rw [h0]
  rcases h with h | ⟨h1, h2⟩ | ⟨h1, h2, h3⟩
  · rw [h]
  · rw [h1, h2]
  · rw [h1, h2, h3]

/-- C1, witness: a concrete failed execution whose returned output is the
folded exception text and whose gate decision equals the containment test
on the exception detail. -/
theorem C1_gate_ignores_failure_witness :
    (execute_code_in_docker "x" ⟨none, some "boom", none, none, "", true⟩).1
        = Except.ok ("Execution failed: " ++ "boom")
      ∧ gate_proceeds ("Execution failed: " ++ "boom") = strContains "boom" "SAFE" :=
  C1_gate_ignores_failure "x" ⟨none, some "boom", none, none, "", true⟩ "boom" rfl
    (Or.inl rfl)

/-- C3.  The spec claims execution is bounded by a wall-clock limit, output
is collected only after the process terminates or is forcibly stopped, and
a process exceeding the limit is reported as `succeeded=false` with
`failure_reason="timeout"`.  Refuted: the script starts the container
detached and reads its logs immediately; on an environment whose process
has not terminated it still returns the logs collected so far as a normal
result, with no timeout report anywhere in the output. -/
theorem C3_counterexample :
    (⟨none, none, none, none, "hello", false⟩ : DockerEnv).processTerminated = false
      ∧ execute_code_in_docker "while True: pass"
          ⟨none, none, none, none, "hello", false⟩
        = (Except.ok "hello", ⟨true, true, true, true⟩)
      ∧ strContains "hello" "timeout" = false := by
  refine ⟨rfl, rfl, rfl⟩

/-- C3, amended.  The Executor has no wall-clock bound at all: its result is
independent of whether the sandboxed process has terminated when the logs
are collected, so no termination status can ever change the report. -/
theorem C3_no_timeout (code : String) (fe rf lf rm : Option String) (lg : String)
    (b1 b2 : Bool) :
    execute_code_in_docker code ⟨fe, rf, lf, rm, lg, b1⟩
      = execute_code_in_docker code ⟨fe, rf, lf, rm, lg, b2⟩ := by
  cases fe <;> cases rf <;> cases lf <;> cases rm <;> rfl

/-- C4.  The spec claims the execution context is torn down on every exit
path, the container removed and the temporary filesystem deleted.  Refuted
twice: when `container.logs` raises after the container has started,
control jumps to the exception handler and `container.remove` is never
reached; and when `container.remove` itself raises, the exception is caught
and the container stays behind even though the logs were collected. -/
theorem C4_counterexample :
    (execute_code_in_docker "x"
        ⟨none, none, some "logs error", none, "", true⟩).2.containerCreated = true
      ∧ (execute_code_in_docker "x"
          ⟨none, none, some "logs error", none, "", true⟩).2.containerRemoved = false
      ∧ (execute_code_in_docker "x"
          ⟨none, none, none, some "removal error", "", true⟩).2.containerCreated = true
      ∧ (execute_code_in_docker "x"
          ⟨none, none, none, some "removal error", "", true⟩).2.containerRemoved
        = false := by
  refine ⟨rfl, rfl, rfl, rfl⟩

/-- C4, amended.  The temporary directory, once created, is deleted on
every exit path (the context manager guarantees it, and it is created
exactly when the client construction returns); the container is created
exactly when the Docker run call returns; but the container is removed only
when the log collection and the removal call itself both return: a logs
failure or a remove failure leaves a created container unremoved. -/
theorem C4_teardown (code : String) (env : DockerEnv) :
    (execute_code_in_docker code env).2.tempdirDeleted
        = (execute_code_in_docker code env).2.tempdirCreated
      ∧ (execute_code_in_docker code env).2.tempdirCreated = env.fromEnvFails.isNone
      ∧ (execute_code_in_docker code env).2.containerCreated
        = (env.fromEnvFails.isNone && env.runFails.isNone)
      ∧ (execute_code_in_docker code env).2.containerRemoved
        = (env.fromEnvFails.isNone && env.runFails.isNone && env.logsFail.isNone
            && env.removeFails.isNone) := by
  obtain ⟨fe, rf, lf, rm, lg, pt⟩ := env
  cases fe <;> cases rf <;> cases lf <;> cases rm <;> exact ⟨rfl, rfl, rfl, rfl⟩

/-- C2.  The spec claims the Coordinator scans the transcript from most
recent to oldest for a Writer-role turn containing the function-definition
marker.  Refuted: the script looks only at the final message, ignoring the
role.  On a run whose Writer turn holds code but whose final Notifier turn
does not, the spec rule extracts the Writer code while the script reports
no artifact and never calls the sandbox. -/
theorem C2_counterexample :
    spec_extract (run_agents "t" "e" envC2).2.transcript = some "def f():\n  return 1"
      ∧ (run_agents "t" "e" envC2).1 = Except.ok RunOutcome.NoArtifact
      ∧ (run_agents "t" "e" envC2).2.sandboxCalls = 0
      ∧ (run_agents "t" "e" envC2).2.publishCalls = 0 := by
  refine ⟨rfl, rfl, rfl, rfl⟩

/-- C2, amended.  When every orchestrator call returns, the run makes its
six turns and decides from the final message only: if the final message
lacks the `"def "` marker the outcome is NoArtifact and neither the sandbox
nor delivery is invoked, and if it has the marker the sandbox is invoked
exactly once on it. -/
theorem C2_final_message_only (env : RunEnv) (t e : String)
    (h : ∀ i s, exceptOk (env.stepResults i s) = true) :
    (run_agents t e env).2.stepCalls = 6
      ∧ (code_extract (run_agents t e env).2.transcript = none
          → (run_agents t e env).1 = Except.ok RunOutcome.NoArtifact
            ∧ (run_agents t e env).2.sandboxCalls = 0
            ∧ (run_agents t e env).2.publishCalls = 0
            ∧ (run_agents t e env).2.notifyCalls = 0)
      ∧ (∀ c, code_extract (run_agents t e env).2.transcript = some c
          → (run_agents t e env).2.sandboxCalls = 1
            ∧ (run_agents t e env).2.sandboxOutput
              = (execute_code_in_docker c env.docker).1.toOption) := by
  rcases run_agents_cases t e env with ⟨ms, er, k, hs, hr⟩ | ⟨ms, k, hs, hr⟩
  · have hok := (stepLoop_all_ok env h 6 0 ("User wants: " ++ t)).1
    rw [hs] at hok
    exact absurd hok (by simp)
  · have hok := stepLoop_all_ok env h 6 0 ("User wants: " ++ t)
    have hk : k = 6 := by
      have h2 := hok.2
      rw [hs] at h2
      exact h2
    have htr : (run_agents t e env).2.transcript = ms := by
      rw [hr]
      rcases afterSteps_cases e env k ms with ⟨hc, heq⟩ | ⟨c, hc, heq⟩
      · rw [heq]
      · rw [heq]
        rcases deliver_cases e env k ms c with ⟨ex, hex, hd⟩ |
            ⟨out, hex, ⟨hg, hd⟩ | ⟨hg, ⟨hp, hd⟩ | ⟨url, hp, hd⟩⟩⟩ <;>
          rw [hd]
    refine ⟨?_, ?_, ?_⟩
    · rw [hr]
      rcases afterSteps_cases e env k ms with ⟨hc, heq⟩ | ⟨c, hc, heq⟩
      · rw [heq, hk]
      · rw [heq]
        rcases deliver_cases e env k ms c with ⟨ex, hex, hd⟩ |
            ⟨out, hex, ⟨hg, hd⟩ | ⟨hg, ⟨hp, hd⟩ | ⟨url, hp, hd⟩⟩⟩ <;>
          rw [hd, hk]
    · intro hnone
      rw [htr] at hnone
      rw [hr, afterSteps_none e env k ms hnone]
      exact ⟨rfl, rfl, rfl, rfl⟩
    · intro c hsome
      rw [htr] at hsome
      rw [hr, afterSteps_some e env k ms c hsome]
      rcases deliver_cases e env k ms c with ⟨ex, hex, hd⟩ |
          ⟨out, hex, ⟨hg, hd⟩ | ⟨hg, ⟨hp, hd⟩ | ⟨url, hp, hd⟩⟩⟩ <;>
        rw [hd] <;> exact ⟨rfl, by rw [hex]; rfl⟩

/-- C2, witness: on the concrete run `envC2` the conclusion instantiates to
the NoArtifact outcome with no sandbox, publish, or notify call. -/
theorem C2_final_message_only_witness :
    (run_agents "t" "e" envC2).1 = Except.ok RunOutcome.NoArtifact
      ∧ (run_agents "t" "e" envC2).2.sandboxCalls = 0
      ∧ (run_agents "t" "e" envC2).2.publishCalls = 0
      ∧ (run_agents "t" "e" envC2).2.notifyCalls = 0 :=
  (C2_final_message_only envC2 "t" "e" (fun i s => by
      rcases i with _ | _ | _ | _ | _ | _ | j <;> rfl)).2.1 rfl

/-- C5.  The spec claims no exception escapes the run entry point, every
external-collaborator failure being caught at its call site.  Refuted
twice: the orchestrator-step calls are wrapped in no try/except, so a
failing first agent turn propagates out of `run_agents` uncaught; and
`docker.from_env()` sits outside the try block of the sandbox helper while
the sandbox call itself is unwrapped, so a failing Docker client
construction also propagates out of `run_agents`, even with all six agent
turns returning normally. -/
theorem C5_counterexample :
    (run_agents "t" "e" envC5).1 = Except.error "connection reset"
      ∧ (run_agents "t" "e" envC5).2.stepCalls = 1
      ∧ (run_agents "t" "e" envC5d).1 = Except.error "docker daemon unreachable"
      ∧ (run_agents "t" "e" envC5d).2.stepCalls = 6
      ∧ (run_agents "t" "e" envC5d).2.sandboxCalls = 1 := by
  refine ⟨rfl, rfl, rfl, rfl, rfl⟩

/-- C5, amended.  The publish and notify failures are caught at their call
sites, and sandbox failures inside the helper try block are too (those
helpers return values instead of raising), so when every orchestrator call
returns normally and the Docker client construction succeeds, the run
raises nothing; the agent-turn calls and the out-of-try
`docker.from_env()` call are the only uncaught exception sources. -/
theorem C5_only_steps_raise (env : RunEnv) (t e : String)
    (h : ∀ i s, exceptOk (env.stepResults i s) = true)
    (hd : env.docker.fromEnvFails = none) :
    exceptOk (run_agents t e env).1 = true := by
  rcases run_agents_cases t e env with ⟨ms, er, k, hs, hr⟩ | ⟨ms, k, hs, hr⟩
  · have hok := (stepLoop_all_ok env h 6 0 ("User wants: " ++ t)).1
    rw [hs] at hok
    exact absurd hok (by simp)
  · rw [hr]
    rcases afterSteps_cases e env k ms with ⟨hc, heq⟩ | ⟨c, hc, heq⟩
    · rw [heq]; rfl
    · rw [heq]
      rcases deliver_cases e env k ms c with ⟨ex, hex, hdl⟩ |
          ⟨out, hex, ⟨hg, hdl⟩ | ⟨hg, ⟨hp, hdl⟩ | ⟨url, hp, hdl⟩⟩⟩
      · have hok2 := execute_ok_of_fromEnv c env.docker hd
        rw [hex] at hok2
        exact absurd hok2 (by simp [exceptOk])
      · rw [hdl]; rfl
      · rw [hdl]; rfl
      · rw [hdl]; rfl

/-- C5, witness: a run whose orchestrator always answers and whose Docker
client constructs raises nothing. -/
theorem C5_only_steps_raise_witness :
    exceptOk (run_agents "t" "e" envC5w).1 = true :=
  C5_only_steps_raise envC5w "t" "e" (fun i s => rfl) rfl

/-- C6.  Publish and notify happen at most once per run, notify never
without publish, and the number of publish calls is exactly one when the
sandbox ran and its output passes the SAFE gate and zero otherwise — in
particular, on any gate abort neither publish nor notify is invoked. -/
theorem C6_delivery_gated (env : RunEnv) (t e : String) :
    (run_agents t e env).2.publishCalls ≤ 1
      ∧ (run_agents t e env).2.notifyCalls ≤ (run_agents t e env).2.publishCalls
      ∧ (run_agents t e env).2.publishCalls
        = (match (run_agents t e env).2.sandboxOutput with
           | none => 0
           | some out => if gate_proceeds out = true then 1 else 0) := by
  rcases run_agents_cases t e env with ⟨ms, er, k, hs, hr⟩ | ⟨ms, k, hs, hr⟩
  · rw [hr]
    exact ⟨Nat.zero_le 1, Nat.le_refl 0, rfl⟩
  · rw [hr]
    rcases afterSteps_cases e env k ms with ⟨hc, heq⟩ | ⟨c, hc, heq⟩
    · rw [heq]
      exact ⟨Nat.zero_le 1, Nat.le_refl 0, rfl⟩
    · rw [heq]
      rcases deliver_cases e env k ms c with ⟨ex, hex, hd⟩ |
          ⟨out, hex, ⟨hg, hd⟩ | ⟨hg, ⟨hp, hd⟩ | ⟨url, hp, hd⟩⟩⟩ <;>
        rw [hd] <;> refine ⟨?_, ?_, ?_⟩
      · exact Nat.zero_le 1
      · exact Nat.le_refl 0
      · rfl
      · exact Nat.zero_le 1
      · exact Nat.le_refl 0
      · show 0 = if gate_proceeds out = true then 1 else 0
        rw [hg, if_neg Bool.false_ne_true]
      · exact Nat.le_refl 1
      · exact Nat.zero_le 1
      · show 1 = if gate_proceeds out = true then 1 else 0
        rw [hg, if_pos rfl]
      · exact Nat.le_refl 1
      · exact Nat.le_refl 1
      · show 1 = if gate_proceeds out = true then 1 else 0
        rw [hg, if_pos rfl]

/-- C7.  Publish returns a reference exactly when every GitHub call
succeeds and `none` on any failure, partial completion included, and it
never raises (it is a total function); and on a run where publish was
invoked (so the gate had decided PROCEED) but GitHub fails, the outcome is
DeliveryFailed and notify is never called. -/
theorem C7_publish_failure (fp c m t e : String) (g : GithubEnv) (env : RunEnv)
    (h1 : (run_agents t e env).2.publishCalls = 1)
    (h2 : githubOk env.github = false) :
    (create_github_pr fp c m g).1.isSome = githubOk g
      ∧ (run_agents t e env).1 = Except.ok RunOutcome.DeliveryFailed
      ∧ (run_agents t e env).2.notifyCalls = 0 := by
  refine ⟨create_github_pr_isSome fp c m g, ?_⟩
  rcases run_agents_cases t e env with ⟨ms, er, k, hs, hr⟩ | ⟨ms, k, hs, hr⟩
  · rw [hr] at h1
    exact absurd h1 (by simp)
  · rw [hr] at h1 ⊢
    rcases afterSteps_cases e env k ms with ⟨hc, heq⟩ | ⟨c2, hc, heq⟩
    · rw [heq] at h1
      exact absurd h1 (by simp)
    · rw [heq] at h1 ⊢
      rcases deliver_cases e env k ms c2 with ⟨ex, hex, hd⟩ |
          ⟨out, hex, ⟨hg, hd⟩ | ⟨hg, ⟨hp, hd⟩ | ⟨url, hp, hd⟩⟩⟩
      · rw [hd] at h1
        exact absurd h1 (by simp)
      · rw [hd] at h1
        exact absurd h1 (by simp)
      · rw [hd]
        exact ⟨rfl, rfl⟩
      · have hsome : (create_github_pr "generated_code.py" c2
            "Add AI-generated feature" env.github).1.isSome = true := by
          rw [hp]; rfl
        rw [create_github_pr_isSome, h2] at hsome
        exact absurd hsome (by simp)

/-- C7, witness: a concrete PROCEED run with an unauthorized GitHub
environment ends in DeliveryFailed with no notification. -/
theorem C7_publish_failure_witness :
    (create_github_pr "a.py" "x" "m" ⟨none, none, none, none, none, "u"⟩).1.isSome
        = githubOk ⟨none, none, none, none, none, "u"⟩
      ∧ (run_agents "t" "e" envC7).1 = Except.ok RunOutcome.DeliveryFailed
      ∧ (run_agents "t" "e" envC7).2.notifyCalls = 0 :=
  C7_publish_failure "a.py" "x" "m" "t" "e" ⟨none, none, none, none, none, "u"⟩ envC7
    rfl rfl

/-- C8.  The spec claims the run makes at most MAX_TURNS agent-turn calls,
where MAX_TURNS defaults to one full cycle through the five roles, i.e. 5.
Refuted: the script makes one initial `orchestrator.step` call plus a
five-iteration loop, 6 calls in total, which exceeds that default bound. -/
theorem C8_counterexample :
    (run_agents "t" "e" envC8).2.stepCalls = 6
      ∧ ¬ ((run_agents "t" "e" envC8).2.stepCalls ≤ MAX_TURNS) := by
  refine ⟨rfl, by decide⟩

/-- C8, amended.  Every run terminates after at most 6 agent-turn calls
(one initial step plus one five-iteration loop), at most one sandbox
execution, at most one publish, and at most one notify; it never loops
unboundedly. -/
theorem C8_call_bounds (env : RunEnv) (t e : String) :
    (run_agents t e env).2.stepCalls ≤ 6
      ∧ (run_agents t e env).2.sandboxCalls ≤ 1
      ∧ (run_agents t e env).2.publishCalls ≤ 1
      ∧ (run_agents t e env).2.notifyCalls ≤ 1 := by
  have hle := stepLoop_count_le env 6 0 ("User wants: " ++ t)
  rcases run_agents_cases t e env with ⟨ms, er, k, hs, hr⟩ | ⟨ms, k, hs, hr⟩
  · rw [hs] at hle
    rw [hr]
    exact ⟨hle, Nat.zero_le 1, Nat.zero_le 1, Nat.zero_le 1⟩
  · rw [hs] at hle
    rw [hr]
    rcases afterSteps_cases e env k ms with ⟨hc, heq⟩ | ⟨c, hc, heq⟩
    · rw [heq]
      exact ⟨hle, Nat.zero_le 1, Nat.zero_le 1, Nat.zero_le 1⟩
    · rw [heq]
      rcases deliver_cases e env k ms c with ⟨ex, hex, hd⟩ |
          ⟨out, hex, ⟨hg, hd⟩ | ⟨hg, ⟨hp, hd⟩ | ⟨url, hp, hd⟩⟩⟩ <;>
        rw [hd]
      · exact ⟨hle, Nat.le_refl 1, Nat.zero_le 1, Nat.zero_le 1⟩
      · exact ⟨hle, Nat.le_refl 1, Nat.zero_le 1, Nat.zero_le 1⟩
      · exact ⟨hle, Nat.le_refl 1, Nat.le_refl 1, Nat.zero_le 1⟩
      · exact ⟨hle, Nat.le_refl 1, Nat.le_refl 1, Nat.le_refl 1⟩

/-- C9.  The spec claims the ephemeral resources of distinct runs carry
distinct names, the publish branch in particular.  Refuted: the branch name
is the fixed literal `auto/feature-agent`, so two different publishes (here
with different files, contents, messages, and GitHub environments) request
exactly the same branch ref. -/
theorem C9_counterexample :
    (create_github_pr "a.py" "code one" "m1"
        ⟨none, none, none, none, none, "u1"⟩).2.refsCreated
      = (create_github_pr "b.py" "code two" "m2"
          ⟨none, none, some "conflict", none, none, "u2"⟩).2.refsCreated
      ∧ (create_github_pr "a.py" "code one" "m1"
          ⟨none, none, none, none, none, "u1"⟩).2.refsCreated
        = ["refs/heads/auto/feature-agent"] := by
  refine ⟨rfl, rfl⟩

/-- C9, amended.  Any two publishes that get as far as requesting a branch
request the one constant branch ref `refs/heads/auto/feature-agent`; the
branch name is independent of the run. -/
theorem C9_branch_constant (fp1 c1 m1 fp2 c2 m2 : String) (g1 g2 : GithubEnv)
    (h1 : (create_github_pr fp1 c1 m1 g1).2.refsCreated ≠ [])
    (h2 : (create_github_pr fp2 c2 m2 g2).2.refsCreated ≠ []) :
    (create_github_pr fp1 c1 m1 g1).2.refsCreated
        = ["refs/heads/" ++ new_branch_name]
      ∧ (create_github_pr fp1 c1 m1 g1).2.refsCreated
        = (create_github_pr fp2 c2 m2 g2).2.refsCreated := by
  rcases refsCreated_cases fp1 c1 m1 g1 with e1 | e1
  · exact absurd e1 h1
  · rcases refsCreated_cases fp2 c2 m2 g2 with e2 | e2
    · exact absurd e2 h2
    · exact ⟨e1, by rw [e1, e2]⟩

/-- C9, witness: two concrete distinct publishes request the same constant
branch ref. -/
theorem C9_branch_constant_witness :
    (create_github_pr "a.py" "code one" "m1"
        ⟨none, none, none, none, none, "u1"⟩).2.refsCreated
      = ["refs/heads/" ++ new_branch_name]
      ∧ (create_github_pr "a.py" "code one" "m1"
          ⟨none, none, none, none, none, "u1"⟩).2.refsCreated
        = (create_github_pr "b.py" "code two" "m2"
            ⟨none, none, some "conflict", none, none, "u2"⟩).2.refsCreated :=
  C9_branch_constant "a.py" "code one" "m1" "b.py" "code two" "m2"
    ⟨none, none, none, none, none, "u1"⟩ ⟨none, none, some "conflict", none, none, "u2"⟩
    (by decide) (by decide)

/-- C10.  The gate tests bare substring containment of SAFE, so the
negative verdict UNSAFE passes it: on a run whose sandbox output is exactly
UNSAFE the gate proceeds, delivery is attempted, and the run even ends
Delivered. -/
theorem C10_substring_gate :
    gate_proceeds "UNSAFE" = true
      ∧ (run_agents "t" "e" envC10).2.sandboxOutput = some "UNSAFE"
      ∧ (run_agents "t" "e" envC10).1
        = Except.ok (RunOutcome.Delivered "http://example/pr/10")
      ∧ (run_agents "t" "e" envC10).2.publishCalls = 1 := by
  refine ⟨rfl, rfl, rfl, rfl⟩

end Pipeline
